import Mathlib

/-!
Verification development for the kurikka incremental-combat game
(`src-tauri/src/game.rs`, `src-tauri/src/lib.rs`, `src-tauri/src/multiplayer.rs`,
`multiplayer-server/src/main.rs`).

Modelling conventions:
* `u32` fields (`coins`, upgrade levels, `stage`, counters, unit ids) are `ℕ`;
  the claims never reach `u32` wrap-around, and the one saturating float→int
  cast in the code (`as u32` in `Upgrades::get_cost`) is modelled explicitly.
* `f32` quantities are modelled as exact rationals (`ℚ`), except in
  `Upgrades.get_cost`, whose result visibly depends on binary32 rounding:
  there the binary32 arithmetic of `3000.0 * 1.2f32.powi(level)` is modelled
  bit-exactly (`roundF32`, `powiF32`), with `powi` realised as the
  square-and-multiply loop of compiler-rt's `__powisf2`, rounding to nearest
  even after every multiplication.
* `ln` (used only by the enemy stage multiplier) is modelled over `ℝ` with
  `Real.log` in a dedicated spawn-stats model, and as an oracle input to the
  executable engine model.
* Randomness (`rand::thread_rng`) and the transcendental `ln` consumed by
  `GameState::update` are supplied through a `SpawnOracle` argument.
* Disk persistence (`persist_state`) has no observable effect on the state and
  is dropped; network transport in the sync client is replaced by the fetched
  value being passed as an argument.
-/

namespace Kurikka

/- Batteries marks the `Rat` field operations `@[irreducible]`, which blocks
`decide` from evaluating closed runs of the model; restore the default
transparency for this file. -/
attribute [local semireducible] Rat.mul Rat.add Rat.sub Rat.inv Rat.ofScientific

/-- Decidable equality for `Except` results, so that closed runs of the
modelled operations can be checked by `decide`. -/
instance {ε α : Type} [DecidableEq ε] [DecidableEq α] : DecidableEq (Except ε α) := fun a b =>
  match a, b with
  | Except.error e, Except.error f =>
    if h : e = f then Decidable.isTrue (by rw [h])
    else Decidable.isFalse (fun hh => by cases hh; exact h rfl)
  | Except.ok x, Except.ok y =>
    if h : x = y then Decidable.isTrue (by rw [h])
    else Decidable.isFalse (fun hh => by cases hh; exact h rfl)
  | Except.error _, Except.ok _ => Decidable.isFalse (fun hh => by cases hh)
  | Except.ok _, Except.error _ => Decidable.isFalse (fun hh => by cases hh)

/-! ### Exact binary32 model for `Upgrades::get_cost` -/

/-- Floor of a rational as an integer (used for binary32 rounding and for the
Rust saturating `as u32` cast). -/
def ratFloor (q : ℚ) : ℤ := q.num.fdiv (q.den : ℤ)

/-- `⌊log₂ n⌋` on naturals (0 for `n ≤ 1`), as structural recursion on a fuel
bound so that it reduces inside the kernel; `natLog2 n` agrees with
`Nat.log2 n` since the argument halves at every step. -/
def natLog2Go : ℕ → ℕ → ℕ
  | 0, _ => 0
  | fuel + 1, n => if 2 ≤ n then natLog2Go fuel (n / 2) + 1 else 0

/-- `⌊log₂ n⌋` on naturals. -/
def natLog2 (n : ℕ) : ℕ := natLog2Go n n

/-- `⌊log₂ q⌋` for a positive rational, computed from the bit lengths of the
numerator and denominator. -/
def qlog2 (q : ℚ) : ℤ :=
  let a : ℤ := (natLog2 q.num.toNat : ℤ)
  let b : ℤ := (natLog2 q.den : ℤ)
  let e : ℤ := a - b
  if q < 2 ^ e then e - 1 else e

/-- Round a positive rational to the nearest IEEE-754 binary32 value
(24-bit significand, round to nearest, ties to even).  Inputs in the cost
computation stay far below the overflow and subnormal thresholds, so neither
is modelled.  Non-positive inputs (never produced here) map to 0. -/
def roundF32 (q : ℚ) : ℚ :=
  if q ≤ 0 then 0
  else
    let e : ℤ := qlog2 q - 23
    let scaled : ℚ := q / 2 ^ e
    let fl : ℤ := ratFloor scaled
    let frac : ℚ := scaled - (fl : ℚ)
    let m : ℤ :=
      if 1 / 2 < frac then fl + 1
      else if frac < 1 / 2 then fl
      else if fl % 2 = 0 then fl else fl + 1
    (m : ℚ) * 2 ^ e

/-- The square-and-multiply loop of compiler-rt's `__powisf2` (the lowering of
`f32::powi` for a non-negative run-time exponent), with binary32 rounding
after each multiplication.  The loop halves `b` until it reaches 0, so the
structural `fuel` parameter (instantiated with `b + 1`, enough iterations for
every `b`) never runs out. -/
def powiF32Go : ℕ → ℚ → ℚ → ℕ → ℚ
  | 0, _a, r, _b => r
  | fuel + 1, a, r, b =>
    let r2 := if b % 2 = 1 then roundF32 (r * a) else r
    let b2 := b / 2
    if b2 = 0 then r2 else powiF32Go fuel (roundF32 (a * a)) r2 b2

/-- `a.powi(b)` in binary32 for a non-negative exponent. -/
def powiF32 (a : ℚ) (b : ℕ) : ℚ := powiF32Go (b + 1) a 1 b

/-- The binary32 value of the literal `1.2_f32` (the nearest binary32 to 6/5). -/
def f32OnePointTwo : ℚ := 10066330 / 8388608

/-- Rust's saturating `as u32` cast of a float: truncate toward zero, clamp to
`[0, u32::MAX]`. -/
def asU32 (q : ℚ) : ℕ :=
  if q ≤ 0 then 0 else min (ratFloor q).toNat (2 ^ 32 - 1)

/-! ### `Upgrades` (game.rs lines 32-87) -/

/-- The eleven upgrade level counters of `struct Upgrades`. -/
structure Upgrades where
  small_attack : ℕ
  medium_attack : ℕ
  large_attack : ℕ
  small_hp : ℕ
  medium_hp : ℕ
  large_hp : ℕ
  small_speed : ℕ
  medium_speed : ℕ
  large_speed : ℕ
  coin_rate : ℕ
  base_hp : ℕ
deriving DecidableEq

/-- `Upgrades::new()`: all counters zero. -/
def Upgrades.new : Upgrades := ⟨0, 0, 0, 0, 0, 0, 0, 0, 0, 0, 0⟩

/-- The level-selection `match` at the head of `Upgrades::get_cost`
(game.rs lines 70-83): unknown pairs fall through to level 0. -/
def Upgrades.level (u : Upgrades) (upgrade_type unit_type : String) : ℕ :=
  match upgrade_type, unit_type with
  | "attack", "small" => u.small_attack
  | "attack", "medium" => u.medium_attack
  | "attack", "large" => u.large_attack
  | "hp", "small" => u.small_hp
  | "hp", "medium" => u.medium_hp
  | "hp", "large" => u.large_hp
  | "speed", "small" => u.small_speed
  | "speed", "medium" => u.medium_speed
  | "speed", "large" => u.large_speed
  | "coin_rate", _ => u.coin_rate
  | "base_hp", _ => u.base_hp
  | _, _ => 0

/-- `Upgrades::get_cost` (game.rs lines 69-86):
`(3000.0 * 1.2_f32.powi(level as i32)) as u32` in binary32 arithmetic with a
saturating cast.  The `level as i32` cast is the identity for levels below
`2^31`, the only range the claims concern. -/
def Upgrades.get_cost (u : Upgrades) (upgrade_type unit_type : String) : ℕ :=
  asU32 (roundF32 (3000 * powiF32 f32OnePointTwo (u.level upgrade_type unit_type)))

/-- Whether `(upgrade_type, unit_type)` is one of the eleven counters of the
fixed enumeration (the non-fall-through arms of the `match` in
`GameState::purchase_upgrade`, game.rs lines 512-528). -/
def isValidAxis (upgrade_type unit_type : String) : Bool :=
  match upgrade_type, unit_type with
  | "attack", "small" => true
  | "attack", "medium" => true
  | "attack", "large" => true
  | "hp", "small" => true
  | "hp", "medium" => true
  | "hp", "large" => true
  | "speed", "small" => true
  | "speed", "medium" => true
  | "speed", "large" => true
  | "coin_rate", _ => true
  | "base_hp", _ => true
  | _, _ => false

/-- Purchase cost per the SPEC's words (spec.md §3/§4.1/§8), for comparison
with the implementation: `floor(3000 × 1.2^level)` computed exactly over the
rationals; `3000·6^L/5^L` in natural division. -/
def costSpec (level : ℕ) : ℕ := 3000 * 6 ^ level / 5 ^ level

/-- `costSpec` is indeed the exact rational floor of `3000 × 1.2^level`. -/
theorem costSpec_eq_floor (level : ℕ) :
    costSpec level = ⌊(3000 : ℚ) * (6 / 5) ^ level⌋₊ := by
  have h : (3000 : ℚ) * (6 / 5) ^ level =
      ((3000 * 6 ^ level : ℕ) : ℚ) / ((5 ^ level : ℕ) : ℚ) := by
    push_cast
    field_simp
  rw [h, Nat.floor_div_eq_div]
  rfl

/-! ### Units and game state (game.rs lines 6-129) -/

/-- `enum UnitType`. -/
inductive UnitType
  | Small
  | Medium
  | Large
deriving DecidableEq

/-- `struct Unit` (game.rs lines 13-30).  `f32` fields are rationals. -/
structure Unit where
  id : ℕ
  unit_type : UnitType
  position : ℚ
  hp : ℚ
  max_hp : ℚ
  attack : ℚ
  speed : ℚ
  is_player : Bool
  target_id : Option ℕ
  knockback_velocity : ℚ
  knockback_time : ℚ
  knockback_total : ℚ
deriving DecidableEq

/-- `struct AutoBuyConfig` (game.rs lines 89-96). -/
structure AutoBuyConfig where
  enabled : Bool
  upgrade_type : String
  unit_type : String
  remaining_time : ℚ
deriving DecidableEq

/-- `AutoBuyConfig::default()`. -/
def AutoBuyConfig.default : AutoBuyConfig := ⟨false, "", "", 0⟩

/-- `struct GameState` (game.rs lines 109-129).  The transient `save_timer`
is kept (it only gates the persistence no-op). -/
structure GameState where
  player_units : List Unit
  enemy_units : List Unit
  player_base_hp : ℚ
  enemy_base_hp : ℚ
  max_player_base_hp : ℚ
  max_enemy_base_hp : ℚ
  coins : ℕ
  stage : ℕ
  click_count : ℕ
  type_count : ℕ
  upgrades : Upgrades
  auto_buy : AutoBuyConfig
  next_unit_id : ℕ
  enemy_spawn_timer : ℚ
  stage_clear : Bool
  save_timer : ℚ
deriving DecidableEq

/-- `GameState::fresh()` (game.rs lines 151-170). -/
def GameState.fresh : GameState where
  player_units := []
  enemy_units := []
  player_base_hp := 1000
  enemy_base_hp := 500
  max_player_base_hp := 1000
  max_enemy_base_hp := 500
  coins := 0
  stage := 1
  click_count := 0
  type_count := 0
  upgrades := Upgrades.new
  auto_buy := AutoBuyConfig.default
  next_unit_id := 0
  enemy_spawn_timer := 0
  stage_clear := false
  save_timer := 0

/-! ### `GameState::purchase_upgrade` (game.rs lines 503-533)

The Rust method mutates `self` and returns `Result<bool, String>`; the model
returns the result together with the state as left by the method (which on
the fall-through `_ => return Err(..)` arm has already had `coins` debited).
`persist_state` is a disk write with no effect on the state. -/

def GameState.purchase_upgrade (s : GameState) (upgrade_type unit_type : String) :
    Except String Bool × GameState :=
  let cost := s.upgrades.get_cost upgrade_type unit_type
  if s.coins < cost then (Except.error "Not enough coins", s)
  else
    let s1 := { s with coins := s.coins - cost }
    match upgrade_type, unit_type with
    | "attack", "small" =>
      (Except.ok true, { s1 with upgrades := { s1.upgrades with small_attack := s1.upgrades.small_attack + 10 } })
    | "attack", "medium" =>
      (Except.ok true, { s1 with upgrades := { s1.upgrades with medium_attack := s1.upgrades.medium_attack + 10 } })
    | "attack", "large" =>
      (Except.ok true, { s1 with upgrades := { s1.upgrades with large_attack := s1.upgrades.large_attack + 10 } })
    | "hp", "small" =>
      (Except.ok true, { s1 with upgrades := { s1.upgrades with small_hp := s1.upgrades.small_hp + 10 } })
    | "hp", "medium" =>
      (Except.ok true, { s1 with upgrades := { s1.upgrades with medium_hp := s1.upgrades.medium_hp + 10 } })
    | "hp", "large" =>
      (Except.ok true, { s1 with upgrades := { s1.upgrades with large_hp := s1.upgrades.large_hp + 10 } })
    | "speed", "small" =>
      (Except.ok true, { s1 with upgrades := { s1.upgrades with small_speed := s1.upgrades.small_speed + 10 } })
    | "speed", "medium" =>
      (Except.ok true, { s1 with upgrades := { s1.upgrades with medium_speed := s1.upgrades.medium_speed + 10 } })
    | "speed", "large" =>
      (Except.ok true, { s1 with upgrades := { s1.upgrades with large_speed := s1.upgrades.large_speed + 10 } })
    | "coin_rate", _ =>
      (Except.ok true, { s1 with upgrades := { s1.upgrades with coin_rate := s1.upgrades.coin_rate + 10 } })
    | "base_hp", _ =>
      let mx := s1.max_player_base_hp * 1.1
      (Except.ok true,
        { s1 with upgrades := { s1.upgrades with base_hp := s1.upgrades.base_hp + 10 },
                  max_player_base_hp := mx,
                  player_base_hp := mx })
    | _, _ => (Except.error "Invalid upgrade type", s1)

/-! ### The tick function `GameState::update` (game.rs lines 285-480)

The two sources of nondeterminism inside a tick — `rand::thread_rng` (the
spawned enemy's kind and the knockback draws of
`reposition_player_units`) — and the transcendental `(stage as f32).ln()` of
`spawn_enemy` are supplied by a `SpawnOracle` argument; everything else
follows the source. -/

/-- Oracle inputs consumed by one call to `GameState::update`: the unit kind
the two `gen_bool` draws of `spawn_enemy` select, the value of
`(stage as f32).ln()`, and the `(distance, duration)` draw used by
`reposition_player_units` for the unit at each index. -/
structure SpawnOracle where
  kind : UnitType
  lnStage : ℚ
  knock : ℕ → ℚ × ℚ

/-- Base stats `(hp, attack, speed)` of an enemy kind
(game.rs lines 261-265). -/
def enemyBaseStats : UnitType → ℚ × ℚ × ℚ
  | UnitType.Small => (15, 4, 90)
  | UnitType.Medium => (40, 12, 70)
  | UnitType.Large => (120, 40, 50)

/-- `GameState::spawn_enemy` (game.rs lines 248-283): pushes one enemy unit
whose hp/max_hp/attack are scaled by the stage multiplier and whose speed is
the base speed. -/
def GameState.spawn_enemy (o : SpawnOracle) (s : GameState) : GameState :=
  let stage_multiplier : ℚ :=
    1 + ((s.stage : ℚ) - 1) * 0.05 + (o.lnStage / 10) * 0.3
  let b := enemyBaseStats o.kind
  { s with
    enemy_units := s.enemy_units ++
      [{ id := s.next_unit_id
         unit_type := o.kind
         position := 1000
         hp := b.1 * stage_multiplier
         max_hp := b.1 * stage_multiplier
         attack := b.2.1 * stage_multiplier
         speed := b.2.2
         is_player := false
         target_id := none
         knockback_velocity := 0
         knockback_time := 0
         knockback_total := 0 }]
    next_unit_id := s.next_unit_id + 1 }

/-- The knockback block at the head of both per-unit loops
(game.rs lines 302-309 and 373-380). -/
def knockbackStep (delta : ℚ) (u : Unit) : Unit :=
  if 0 < u.knockback_time then
    let pos := u.position + u.knockback_velocity * delta
    let kt := max (u.knockback_time - delta) 0
    if kt = 0 then
      { u with position := pos, knockback_time := 0,
               knockback_velocity := 0, knockback_total := 0 }
    else { u with position := pos, knockback_time := kt }
  else u

/-- Clear `target_id` when it no longer names a live opposing unit
(game.rs lines 312-316 and 382-386). -/
def clearDeadTarget (opponents : List Unit) (u : Unit) : Unit :=
  match u.target_id with
  | some t => if opponents.any (fun e => e.id == t) then u else { u with target_id := none }
  | none => u

/-- `min_by` over `|their position − my position|`; Rust's `min_by` keeps the
first of equally minimal elements (game.rs lines 320-331 and 388-400). -/
def nearestUnit (pos : ℚ) (l : List Unit) : Option Unit :=
  l.foldl
    (fun acc e =>
      match acc with
      | none => some e
      | some b => if |e.position - pos| < |b.position - pos| then some e else some b)
    none

/-- Acquire a target when none is set (game.rs lines 319-332 and 388-401). -/
def acquireTarget (opponents : List Unit) (u : Unit) : Unit :=
  if u.target_id.isNone then
    match nearestUnit u.position opponents with
    | some e => { u with target_id := some e.id }
    | none => u
  else u

/-- Apply `f` to the first unit with the given id (`iter_mut().find`). -/
def updateFirst (l : List Unit) (tid : ℕ) (f : Unit → Unit) : List Unit :=
  match l with
  | [] => []
  | x :: xs => if x.id == tid then f x :: xs else x :: updateFirst xs tid f

/-- Move-or-attack step of one player unit (game.rs lines 334-365), acting on
the enemy list, the coin balance, the enemy base HP, and the removal list. -/
def stepPlayerCombat (delta : ℚ) (coin_rate : ℕ) (u : Unit) (enemies : List Unit)
    (coins : ℕ) (enemy_base_hp : ℚ) (toRemove : List ℕ) :
    Unit × List Unit × ℕ × ℚ × List ℕ :=
  match u.target_id with
  | some tid =>
    match enemies.find? (fun e => e.id == tid) with
    | some enemy =>
      let distance := |enemy.position - u.position|
      if distance ≤ 10 then
        let newHp := enemy.hp - u.attack * delta
        let enemies2 := updateFirst enemies tid (fun e => { e with hp := newHp })
        if newHp ≤ 0 then
          let coin_bonus : ℚ := 1 + (coin_rate : ℚ) / 100
          (u, enemies2, coins + asU32 (max (1 * coin_bonus) 1), enemy_base_hp,
            toRemove ++ [enemy.id])
        else (u, enemies2, coins, enemy_base_hp, toRemove)
      else
        let direction : ℚ := if u.position < enemy.position then 1 else -1
        ({ u with position := u.position + direction * u.speed * delta },
          enemies, coins, enemy_base_hp, toRemove)
    | none => (u, enemies, coins, enemy_base_hp, toRemove)
  | none =>
    if u.position < 1000 then
      ({ u with position := u.position + u.speed * delta },
        enemies, coins, enemy_base_hp, toRemove)
    else (u, enemies, coins, enemy_base_hp - u.attack * delta, toRemove)

/-- The indexed loop over `self.player_units` (game.rs lines 298-366). -/
def playerLoop (delta : ℚ) (coin_rate : ℕ) :
    List Unit → List Unit → ℕ → ℚ → List ℕ →
    List Unit × List Unit × ℕ × ℚ × List ℕ
  | [], enemies, coins, ebase, rem => ([], enemies, coins, ebase, rem)
  | u :: rest, enemies, coins, ebase, rem =>
    let u1 := acquireTarget enemies (clearDeadTarget enemies (knockbackStep delta u))
    let r := stepPlayerCombat delta coin_rate u1 enemies coins ebase rem
    let rr := playerLoop delta coin_rate rest r.2.1 r.2.2.1 r.2.2.2.1 r.2.2.2.2
    (r.1 :: rr.1, rr.2)

/-- Move-or-attack step of one enemy unit (game.rs lines 403-426): damages
player units and the player base, never awards coins. -/
def stepEnemyCombat (delta : ℚ) (u : Unit) (players : List Unit)
    (player_base_hp : ℚ) (toRemove : List ℕ) :
    Unit × List Unit × ℚ × List ℕ :=
  match u.target_id with
  | some tid =>
    match players.find? (fun e => e.id == tid) with
    | some player =>
      let distance := |player.position - u.position|
      if distance ≤ 10 then
        let newHp := player.hp - u.attack * delta
        let players2 := updateFirst players tid (fun e => { e with hp := newHp })
        if newHp ≤ 0 then
          (u, players2, player_base_hp, toRemove ++ [player.id])
        else (u, players2, player_base_hp, toRemove)
      else
        let direction : ℚ := if u.position < player.position then 1 else -1
        ({ u with position := u.position + direction * u.speed * delta },
          players, player_base_hp, toRemove)
    | none => (u, players, player_base_hp, toRemove)
  | none =>
    if 0 < u.position then
      ({ u with position := u.position - u.speed * delta },
        players, player_base_hp, toRemove)
    else (u, players, player_base_hp - u.attack * delta, toRemove)

/-- The indexed loop over `self.enemy_units` (game.rs lines 369-427). -/
def enemyLoop (delta : ℚ) :
    List Unit → List Unit → ℚ → List ℕ →
    List Unit × List Unit × ℚ × List ℕ
  | [], players, pbase, rem => ([], players, pbase, rem)
  | u :: rest, players, pbase, rem =>
    let u1 := acquireTarget players (clearDeadTarget players (knockbackStep delta u))
    let r := stepEnemyCombat delta u1 players pbase rem
    let rr := enemyLoop delta rest r.2.1 r.2.2.1 r.2.2.2
    (r.1 :: rr.1, rr.2)

/-- `GameState::reposition_player_units` (game.rs lines 535-558). -/
def GameState.reposition_player_units (o : SpawnOracle) (s : GameState) : GameState :=
  let small_base_hp : ℚ := 10 * (1 + (s.upgrades.small_hp : ℚ) / 100)
  let damage := small_base_hp * 0.35
  let units := s.player_units.enum.map (fun p =>
    let u := p.2
    let draw := o.knock p.1
    { u with position := min u.position 400
             hp := u.hp - damage
             knockback_velocity := -(draw.1 / draw.2)
             knockback_time := draw.2
             knockback_total := draw.2 })
  { s with player_units := units.filter (fun u => decide (0 < u.hp)) }

/-- `GameState::next_stage` (game.rs lines 482-491). -/
def GameState.next_stage (o : SpawnOracle) (s : GameState) : GameState :=
  let stage2 := s.stage + 1
  let ebase : ℚ := 500 * (1 + ((stage2 : ℚ) - 1) * 0.5)
  GameState.reposition_player_units o
    { s with stage := stage2
             enemy_base_hp := ebase
             max_enemy_base_hp := ebase
             enemy_units := []
             enemy_spawn_timer := 0
             stage_clear := false }

/-- `GameState::reset_current_stage` (game.rs lines 493-501). -/
def GameState.reset_current_stage (s : GameState) : GameState :=
  { s with player_units := []
           enemy_units := []
           player_base_hp := s.max_player_base_hp
           enemy_base_hp := s.max_enemy_base_hp
           enemy_spawn_timer := 0
           stage_clear := false }

/-- The spawn interval `(3.0 - (stage * 0.002).min(2.0)).max(1.0)`
(game.rs line 288). -/
def spawnInterval (stage : ℕ) : ℚ := max (3 - min ((stage : ℚ) * 0.002) 2) 1

/-- `GameState::update` (game.rs lines 285-480): one tick. -/
def GameState.update (o : SpawnOracle) (delta : ℚ) (s0 : GameState) : GameState :=
  -- enemy spawn
  let sA := { s0 with enemy_spawn_timer := s0.enemy_spawn_timer + delta }
  let sB := if spawnInterval sA.stage ≤ sA.enemy_spawn_timer then
              { sA.spawn_enemy o with enemy_spawn_timer := 0 }
            else sA
  -- player units: movement and combat
  let pr := playerLoop delta sB.upgrades.coin_rate sB.player_units sB.enemy_units
    sB.coins sB.enemy_base_hp []
  -- enemy units: movement and combat
  let er := enemyLoop delta pr.2.1 pr.1 sB.player_base_hp pr.2.2.2.2
  -- clamp positions to [0, 1000]
  let pU := er.2.1.map (fun u => { u with position := min (max u.position 0) 1000 })
  let eU := er.1.map (fun u => { u with position := min (max u.position 0) 1000 })
  -- remove dead units
  let rem := er.2.2.2
  let sC := { sB with
    player_units := pU.filter (fun u => !(rem.contains u.id))
    enemy_units := eU.filter (fun u => !(rem.contains u.id))
    coins := pr.2.2.1
    enemy_base_hp := pr.2.2.2.1
    player_base_hp := er.2.2.1 }
  -- stage clear
  let sD := if sC.enemy_base_hp ≤ (0 : ℚ) then
              if sC.stage_clear then sC
              else
                GameState.next_stage o
                  { sC with stage_clear := true
                            coins := sC.coins + max (20 * sC.stage / 2) 10 }
            else sC
  -- defeat
  let sE := if sD.player_base_hp ≤ (0 : ℚ) then sD.reset_current_stage else sD
  -- auto-buy
  let sF :=
    if (0 : ℚ) < sE.auto_buy.remaining_time then
      let rt := sE.auto_buy.remaining_time - delta
      let sE2 := if rt ≤ (0 : ℚ) then
                   { sE with auto_buy := { sE.auto_buy with remaining_time := 0, enabled := false } }
                 else { sE with auto_buy := { sE.auto_buy with remaining_time := rt } }
      if sE2.auto_buy.enabled then
        if sE2.auto_buy.upgrade_type = "" then sE2
        else
          let cost := sE2.upgrades.get_cost sE2.auto_buy.upgrade_type sE2.auto_buy.unit_type
          if cost ≤ sE2.coins then
            (sE2.purchase_upgrade sE2.auto_buy.upgrade_type sE2.auto_buy.unit_type).2
          else sE2
      else sE2
    else { sE with auto_buy := { sE.auto_buy with enabled := false } }
  -- periodic save (persistence itself is a no-op on the state)
  let sG := { sF with save_timer := sF.save_timer + delta }
  if (5 : ℚ) ≤ sG.save_timer then { sG with save_timer := 0 } else sG

/-! ### Spawn-stat model over ℝ (game.rs lines 248-283)

For reasoning about the stage multiplier itself, `spawn_enemy`'s stat formula
is restated over `ℝ` with the genuine logarithm, so that claims about
`ln(stage)` need no oracle. -/

/-- `stage_multiplier = 1 + (stage-1)*0.05 + (ln(stage)/10)*0.3`
(game.rs line 251). -/
noncomputable def stage_multiplier (stage : ℕ) : ℝ :=
  1 + ((stage : ℝ) - 1) * 0.05 + (Real.log (stage : ℝ) / 10) * 0.3

/-- Base stats `(hp, attack, speed)` of an enemy kind, over ℝ
(game.rs lines 261-265). -/
noncomputable def enemyBaseStatsR : UnitType → ℝ × ℝ × ℝ
  | UnitType.Small => (15, 4, 90)
  | UnitType.Medium => (40, 12, 70)
  | UnitType.Large => (120, 40, 50)

/-- The combat stats of the enemy unit pushed by `GameState::spawn_enemy`
(game.rs lines 267-280). -/
structure EnemySpawnStats where
  hp : ℝ
  max_hp : ℝ
  attack : ℝ
  speed : ℝ

/-- Stats assigned by `spawn_enemy` at a given stage: hp, max_hp and attack
are scaled by the stage multiplier, speed is the base speed
(game.rs lines 271-274). -/
noncomputable def spawn_enemy_stats (stage : ℕ) (kind : UnitType) : EnemySpawnStats :=
  let m := stage_multiplier stage
  let b := enemyBaseStatsR kind
  ⟨b.1 * m, b.1 * m, b.2.1 * m, b.2.2⟩

/-! ### `start_auto_buy` (lib.rs lines 187-211) -/

/-- The tauri command `start_auto_buy`: charges a flat 5000-coin activation
fee, then installs the auto-buy configuration. -/
def start_auto_buy (s : GameState) (upgrade_type unit_type : String)
    (duration_seconds : ℚ) : Except String PUnit.{1} × GameState :=
  let auto_buy_cost := 5000
  if s.coins < auto_buy_cost then
    (Except.error "Not enough coins for auto-buy", s)
  else
    (Except.ok PUnit.unit,
      { s with coins := s.coins - auto_buy_cost
               auto_buy := { enabled := true
                             upgrade_type := upgrade_type
                             unit_type := unit_type
                             remaining_time := duration_seconds } })

/-! ### Sync client pull (multiplayer.rs lines 217-226, lib.rs lines 160-173) -/

/-- `MultiplayerClient::mark_remote_update`: accepts a remote timestamp iff no
timestamp is recorded yet or the remote one is strictly greater; returns
whether it was accepted together with the updated `last_remote_update`. -/
def mark_remote_update (last_remote_update : Option ℤ) (timestamp : ℤ) :
    Bool × Option ℤ :=
  match last_remote_update with
  | none => (true, some timestamp)
  | some current =>
    if current < timestamp then (true, some timestamp)
    else (false, some current)

/-- The tauri command `mp_pull_state`, with the network fetch replaced by the
fetched profile's `last_update` and progress payload passed as arguments:
the remote progress is imported into the game state iff `mark_remote_update`
accepts the remote timestamp.  The progress payload is abstract (`α`); the
importing step (`GameState::import_progress`, called in lib.rs line 168) is
modelled as the local payload being replaced by the remote one. -/
def mp_pull_state {α : Type} (last_remote_update : Option ℤ)
    (remote_last_update : ℤ) (remote_progress local_progress : α) :
    Bool × Option ℤ × α :=
  let r := mark_remote_update last_remote_update remote_last_update
  if r.1 then (true, r.2, remote_progress)
  else (false, r.2, local_progress)

/-! ### Remote profile store (multiplayer-server/src/main.rs) -/

/-- `struct UpgradesProgress` (main.rs lines 13-26). -/
structure UpgradesProgress where
  small_attack : ℕ
  medium_attack : ℕ
  large_attack : ℕ
  small_hp : ℕ
  medium_hp : ℕ
  large_hp : ℕ
  small_speed : ℕ
  medium_speed : ℕ
  large_speed : ℕ
  coin_rate : ℕ
  base_hp : ℕ
deriving DecidableEq

/-- `UpgradesProgress::default()`: all zero. -/
def UpgradesProgress.default : UpgradesProgress := ⟨0, 0, 0, 0, 0, 0, 0, 0, 0, 0, 0⟩

/-- `struct PlayerProgress` (main.rs lines 28-35). -/
structure PlayerProgress where
  stage : ℕ
  coins : ℕ
  upgrades : UpgradesProgress
  max_player_base_hp : ℚ
  max_enemy_base_hp : ℚ
deriving DecidableEq

/-- `PlayerProgress::default()` (main.rs lines 37-47). -/
def PlayerProgress.default : PlayerProgress := ⟨1, 0, UpgradesProgress.default, 1000, 500⟩

/-- `struct PlayerProfile` on the server (main.rs lines 49-55). -/
structure PlayerProfile where
  player_id : String
  player_name : String
  progress : PlayerProgress
  last_update : ℤ
deriving DecidableEq

/-- `struct ServerState` (main.rs lines 68-72): both `HashMap`s are modelled
as association lists with first-match lookup (insertion conses in front, so
lookup sees the latest binding, as a `HashMap` does). -/
structure ServerState where
  players : List (String × PlayerProfile)
  name_index : List (String × String)
deriving DecidableEq

/-- Rust's `str::trim`, modelled on the character list: drop whitespace from
both ends.  (Core's `String.trim` is stated over byte positions with
well-founded recursion, which the kernel cannot evaluate.) -/
def strTrim (s : String) : String :=
  ⟨((s.data.dropWhile Char.isWhitespace).reverse.dropWhile Char.isWhitespace).reverse⟩

/-- Rust's `str::to_lowercase`, modelled on the character list (ASCII case
mapping; the registered names the claims concern are ASCII). -/
def strToLower (s : String) : String := ⟨s.data.map Char.toLower⟩

/-- `normalize_name` (main.rs lines 123-125): trim then lowercase. -/
def normalize_name (name : String) : String := strToLower (strTrim name)

/-- `struct RegisterResponse` (main.rs lines 114-121). -/
structure RegisterResponse where
  player_id : String
  player_name : String
  message : String
  progress : PlayerProgress
  last_update : ℤ
deriving DecidableEq

/-- `build_register_response` (main.rs lines 127-135). -/
def build_register_response (profile : PlayerProfile) (message : String) :
    RegisterResponse :=
  ⟨profile.player_id, profile.player_name, message, profile.progress,
    profile.last_update⟩

/-- `register_player` (main.rs lines 137-175).  `Uuid::new_v4()` and
`Utc::now().timestamp()` are supplied as the `fresh_id` and `now` arguments;
the error value models the 400 response for an empty name.  An existing
profile is returned (and the store left untouched) exactly when the
lowercased trimmed name resolves through both maps; otherwise a fresh
profile with default progress is inserted into both maps. -/
def register_player (st : ServerState) (player_name : String)
    (fresh_id : String) (now : ℤ) : Except String RegisterResponse × ServerState :=
  let requested := strTrim player_name
  if requested = "" then (Except.error "Player name is required", st)
  else
    let lower := normalize_name requested
    match (st.name_index.lookup lower).bind (fun id => st.players.lookup id) with
    | some profile =>
      (Except.ok (build_register_response profile "Welcome back! Progress loaded."), st)
    | none =>
      let profile : PlayerProfile := ⟨fresh_id, requested, PlayerProgress.default, now⟩
      (Except.ok (build_register_response profile "Account created!"),
        { players := (fresh_id, profile) :: st.players
          name_index := (lower, fresh_id) :: st.name_index })

/-! ## Theorems about the claims -/

/-- Claim C1 (evaluation at the failing input): for the invalid pair
`("foo", "bar")` and a zero coin balance, `purchase_upgrade` does NOT fail
with the invalid-axis error — it fails with the insufficient-funds error
`"Not enough coins"`, because the affordability of the level-0 cost (3000) is
checked before the axis is validated. -/
theorem purchase_upgrade_invalid_axis_poor_balance :
    isValidAxis "foo" "bar" = false ∧
    GameState.fresh.coins = 0 ∧
    GameState.fresh.purchase_upgrade "foo" "bar" =
      (Except.error "Not enough coins", GameState.fresh) := by
  decide

/-- Claim C2: with exactly 3000 coins (the cost computed at level 0 for
unknown pairs) and the invalid pair `("foo", "bar")`, `purchase_upgrade`
returns the invalid-axis error but has already debited the 3000 coins: the
resulting state is the fresh state with zero coins. -/
theorem purchase_upgrade_invalid_axis_debits :
    isValidAxis "foo" "bar" = false ∧
    Upgrades.new.get_cost "foo" "bar" = 3000 ∧
    GameState.purchase_upgrade { GameState.fresh with coins := 3000 } "foo" "bar" =
      (Except.error "Invalid upgrade type", GameState.fresh) ∧
    GameState.fresh.coins = 0 := by
  decide

/-- Claim C6: for any valid `(upgrade_type, unit_type)` pair, a purchase with
`coins < cost` fails with the insufficient-funds error and returns the state
completely unchanged. -/
theorem purchase_upgrade_insufficient_funds (s : GameState) (ut vt : String)
    (hvalid : isValidAxis ut vt = true)
    (hcoins : s.coins < s.upgrades.get_cost ut vt) :
    s.purchase_upgrade ut vt = (Except.error "Not enough coins", s) := by
  unfold GameState.purchase_upgrade
  simp [hcoins]

/-- Witness for C6: the fresh state (zero coins) attempting the valid axis
`("attack", "small")` of cost 3000. -/
theorem purchase_upgrade_insufficient_funds_witness :
    isValidAxis "attack" "small" = true ∧
    GameState.fresh.coins < GameState.fresh.upgrades.get_cost "attack" "small" ∧
    GameState.fresh.purchase_upgrade "attack" "small" =
      (Except.error "Not enough coins", GameState.fresh) :=
  ⟨by decide, by decide,
    purchase_upgrade_insufficient_funds GameState.fresh "attack" "small"
      (by decide) (by decide)⟩

/-- Claim C7: every affordable (hence successful) purchase of the `base_hp`
axis, from a state with a positive maximum base HP, succeeds, multiplies
`max_player_base_hp` by 1.1 (strictly increasing it) and sets
`player_base_hp` to the new maximum. -/
theorem purchase_upgrade_base_hp (s : GameState) (vt : String)
    (hcost : s.upgrades.get_cost "base_hp" vt ≤ s.coins)
    (hpos : 0 < s.max_player_base_hp) :
    (s.purchase_upgrade "base_hp" vt).1 = Except.ok true ∧
    (s.purchase_upgrade "base_hp" vt).2.player_base_hp =
      (s.purchase_upgrade "base_hp" vt).2.max_player_base_hp ∧
    (s.purchase_upgrade "base_hp" vt).2.max_player_base_hp =
      s.max_player_base_hp * 1.1 ∧
    s.max_player_base_hp < (s.purchase_upgrade "base_hp" vt).2.max_player_base_hp := by
  unfold GameState.purchase_upgrade
  rw [if_neg (Nat.not_lt.mpr hcost)]
  refine ⟨rfl, rfl, rfl, ?_⟩
  have h11 : (1 : ℚ) < 1.1 := by norm_num
  calc s.max_player_base_hp = s.max_player_base_hp * 1 := by ring
    _ < s.max_player_base_hp * 1.1 := by
        exact mul_lt_mul_of_pos_left h11 hpos

/-- Witness for C7: a fresh state granted 3000 coins purchasing `base_hp`
(level 0, cost 3000). -/
theorem purchase_upgrade_base_hp_witness :
    ({ GameState.fresh with coins := 3000 } : GameState).upgrades.get_cost "base_hp" "" ≤ 3000 ∧
    (0 : ℚ) < ({ GameState.fresh with coins := 3000 } : GameState).max_player_base_hp ∧
    ((GameState.purchase_upgrade { GameState.fresh with coins := 3000 } "base_hp" "").1 = Except.ok true ∧
     (GameState.purchase_upgrade { GameState.fresh with coins := 3000 } "base_hp" "").2.player_base_hp =
       (GameState.purchase_upgrade { GameState.fresh with coins := 3000 } "base_hp" "").2.max_player_base_hp ∧
     (GameState.purchase_upgrade { GameState.fresh with coins := 3000 } "base_hp" "").2.max_player_base_hp =
       ({ GameState.fresh with coins := 3000 } : GameState).max_player_base_hp * 1.1 ∧
     ({ GameState.fresh with coins := 3000 } : GameState).max_player_base_hp <
       (GameState.purchase_upgrade { GameState.fresh with coins := 3000 } "base_hp" "").2.max_player_base_hp) :=
  ⟨by decide, by decide,
    purchase_upgrade_base_hp { GameState.fresh with coins := 3000 } ""
      (by decide) (by decide)⟩

/-- Claim C10: `start_auto_buy` charges a flat 5000-coin activation fee: with
fewer than 5000 coins it fails and changes nothing; otherwise it debits
exactly 5000 coins and installs the enabled auto-buy configuration with the
requested target and duration. -/
theorem start_auto_buy_spec (s : GameState) (ut vt : String) (d : ℚ) :
    (s.coins < 5000 →
      start_auto_buy s ut vt d = (Except.error "Not enough coins for auto-buy", s)) ∧
    (5000 ≤ s.coins →
      start_auto_buy s ut vt d =
        (Except.ok PUnit.unit,
          { s with coins := s.coins - 5000, auto_buy := ⟨true, ut, vt, d⟩ })) := by
  constructor
  · intro h
    unfold start_auto_buy
    rw [if_pos h]
  · intro h
    unfold start_auto_buy
    rw [if_neg (Nat.not_lt.mpr h)]

/-- Witness for C10: both branches exercised, on the fresh state (0 coins)
and on the fresh state granted 6000 coins. -/
theorem start_auto_buy_spec_witness :
    (GameState.fresh.coins < 5000 ∧
      start_auto_buy GameState.fresh "attack" "small" 30 =
        (Except.error "Not enough coins for auto-buy", GameState.fresh)) ∧
    (5000 ≤ ({ GameState.fresh with coins := 6000 } : GameState).coins ∧
      start_auto_buy { GameState.fresh with coins := 6000 } "hp" "large" 45 =
        (Except.ok PUnit.unit,
          { ({ GameState.fresh with coins := 6000 } : GameState) with
              coins := ({ GameState.fresh with coins := 6000 } : GameState).coins - 5000,
              auto_buy := ⟨true, "hp", "large", 45⟩ })) :=
  ⟨⟨by decide, (start_auto_buy_spec GameState.fresh "attack" "small" 30).1 (by decide)⟩,
   ⟨by decide, (start_auto_buy_spec { GameState.fresh with coins := 6000 } "hp" "large" 45).2 (by decide)⟩⟩

/-- An upgrade state with the `small_attack` counter at the given level (the
cost depends only on the selected counter's level). -/
def upgradesAtLevel (level : ℕ) : Upgrades := { Upgrades.new with small_attack := level }

set_option maxRecDepth 4000 in
/-- Claim C3 (counterexample): at level 18 the binary32 cost 79870 differs
from the exact rational `floor(3000 × 1.2^18) = 79869`, and from level 78 on
the saturating `as u32` cast pins the cost at `u32::MAX`, so the cost from
level 78 to 79 does not strictly increase. -/
theorem get_cost_not_exact_not_strictly_increasing :
    (upgradesAtLevel 18).get_cost "attack" "small" ≠ costSpec 18 ∧
    ¬ ((upgradesAtLevel 78).get_cost "attack" "small" <
        (upgradesAtLevel 79).get_cost "attack" "small") := by
  decide

set_option maxRecDepth 8000 in
/-- Claim C3 (amended): the cost is the binary32 value of
`3000.0 * 1.2f32.powi(level)` saturating-cast to `u32`; it agrees with the
exact rational `floor(3000 × 1.2^level)` for levels 0–17, is strictly
increasing up to the saturation point, and is pinned at
`u32::MAX = 4294967295` from level 78 on (verified through level 100). -/
theorem get_cost_f32_saturating :
    (∀ level, level < 18 →
      (upgradesAtLevel level).get_cost "attack" "small" = costSpec level) ∧
    (∀ level, level < 78 →
      (upgradesAtLevel level).get_cost "attack" "small" <
        (upgradesAtLevel (level + 1)).get_cost "attack" "small") ∧
    (∀ k, k < 23 →
      (upgradesAtLevel (78 + k)).get_cost "attack" "small" = 4294967295) := by
  refine ⟨?_, ?_, ?_⟩ <;> decide

set_option maxRecDepth 4000 in
/-- Witness for the amended C3 at levels 10, 77 and 100. -/
theorem get_cost_f32_saturating_witness :
    (upgradesAtLevel 10).get_cost "attack" "small" = costSpec 10 ∧
    (upgradesAtLevel 77).get_cost "attack" "small" <
      (upgradesAtLevel 78).get_cost "attack" "small" ∧
    (upgradesAtLevel 100).get_cost "attack" "small" = 4294967295 :=
  ⟨get_cost_f32_saturating.1 10 (by decide),
   get_cost_f32_saturating.2.1 77 (by decide),
   get_cost_f32_saturating.2.2 22 (by decide)⟩

/-- Claim C4 (counterexample): at stage 2 the stage multiplier exceeds 1, yet
the spawned enemy's speed is the unscaled base speed, so it is NOT the base
speed multiplied by the stage multiplier. -/
theorem spawn_enemy_speed_unscaled_stage2 :
    (spawn_enemy_stats 2 UnitType.Small).speed ≠
      (enemyBaseStatsR UnitType.Small).2.2 * stage_multiplier 2 := by
  have hm : (1 : ℝ) < stage_multiplier 2 := by
    unfold stage_multiplier
    have hlog : 0 < Real.log 2 := Real.log_pos one_lt_two
    push_cast
    nlinarith
  show (90 : ℝ) ≠ (90 : ℝ) * stage_multiplier 2
  intro h
  nlinarith [hm]

/-- Claim C4 (amended): a spawned enemy's hp, max_hp and attack are the
kind's base stats multiplied by
`stage_multiplier = 1 + (stage−1)×0.05 + (ln(stage)/10)×0.3`, but its speed
is the kind's base speed, NOT multiplied by the stage multiplier. -/
theorem spawn_enemy_stats_scaled_except_speed (stage : ℕ) (kind : UnitType) :
    (spawn_enemy_stats stage kind).hp = (enemyBaseStatsR kind).1 * stage_multiplier stage ∧
    (spawn_enemy_stats stage kind).max_hp = (enemyBaseStatsR kind).1 * stage_multiplier stage ∧
    (spawn_enemy_stats stage kind).attack = (enemyBaseStatsR kind).2.1 * stage_multiplier stage ∧
    (spawn_enemy_stats stage kind).speed = (enemyBaseStatsR kind).2.2 :=
  ⟨rfl, rfl, rfl, rfl⟩

/-- Oracle used by the concrete tick runs: its draws are never consumed
(no enemy spawns and no stage transition happens in those runs). -/
def demoOracle : SpawnOracle := ⟨UnitType.Small, 0, fun _ => (30, 1 / 2)⟩

/-- A combat unit with the given id, position, hp and attack, full health,
speed 1, no target and no knockback. -/
def mkCombatUnit (id : ℕ) (position hp attack : ℚ) (is_player : Bool) : Unit :=
  { id := id, unit_type := UnitType.Small, position := position, hp := hp,
    max_hp := hp, attack := attack, speed := 1, is_player := is_player,
    target_id := none, knockback_velocity := 0, knockback_time := 0,
    knockback_total := 0 }

/-- Two player units (attack 5) flanking, in range, a single enemy with 1 hp;
one tick of `dt = 1` kills the enemy with the first unit's hit, and the
second unit hits the not-yet-removed corpse in the same tick. -/
def doubleKillState : GameState :=
  { GameState.fresh with
    player_units := [mkCombatUnit 0 95 100 5 true, mkCombatUnit 1 105 100 5 true]
    enemy_units := [mkCombatUnit 2 100 1 0 false]
    next_unit_id := 3 }

/-- One player unit with 1 hp in range of an enemy with attack 5: the tick
kills the player unit. -/
def playerDeathState : GameState :=
  { GameState.fresh with
    player_units := [mkCombatUnit 0 100 1 0 true]
    enemy_units := [mkCombatUnit 1 105 100 5 false]
    next_unit_id := 2 }

/-- Claim C5 (counterexample): in `doubleKillState` exactly one enemy dies
during the tick, the per-death award at `coin_rate = 0` is 1 coin, yet the
tick awards 2 coins — enemy removal is deferred to the end of the tick, so
the second attacker's lethal hit on the already-dead enemy awards coins
again; "exactly once per dying enemy" fails. -/
theorem update_awards_coins_twice_for_one_death :
    (doubleKillState.update demoOracle 1).coins = 2 ∧
    doubleKillState.coins = 0 ∧
    doubleKillState.enemy_units.length = 1 ∧
    (doubleKillState.update demoOracle 1).enemy_units = [] ∧
    asU32 (max (1 * (1 + (doubleKillState.upgrades.coin_rate : ℚ) / 100)) 1) = 1 := by
  decide

/-- Claim C5 (amended): each in-range player attack that leaves its enemy
target with `hp ≤ 0` marks the enemy for removal and awards
`⌊max(1, 1×(1+coin_rate/100))⌋` coins; removal is deferred to the end of the
tick, so an enemy brought to `hp ≤ 0` can be hit again by other attackers in
the same tick, awarding the coins once per lethal hit rather than exactly
once per death (two attackers on one dying enemy yield 2 coins); deaths of
player units award no coins. -/
theorem update_coin_award_per_lethal_hit :
    ((doubleKillState.update demoOracle 1).coins = doubleKillState.coins + 2 ∧
     (doubleKillState.update demoOracle 1).enemy_units = []) ∧
    ((playerDeathState.update demoOracle 1).coins = playerDeathState.coins ∧
     (playerDeathState.update demoOracle 1).player_units = [] ∧
     (playerDeathState.update demoOracle 1).enemy_units.length = 1) := by
  decide

/-- Claim C8: a pull applies the fetched remote progress iff the remote
`last_update` strictly exceeds the last recorded timestamp (always applying
when none is recorded yet), and a second pull against an unchanged server
never applies (returns `false`), so at most one of two consecutive pulls
applies an update. -/
theorem mp_pull_state_last_write_wins {α : Type} (last : Option ℤ) (t : ℤ)
    (p q : α) :
    ((mp_pull_state last t p q).1 = true ↔
      last = none ∨ ∃ c, last = some c ∧ c < t) ∧
    (mp_pull_state (mp_pull_state last t p q).2.1 t p
      (mp_pull_state last t p q).2.2).1 = false := by
  cases last with
  | none => simp [mp_pull_state, mark_remote_update]
  | some c =>
    by_cases h : c < t
    · simp [mp_pull_state, mark_remote_update, h, lt_irrefl]
    · simp [mp_pull_state, mark_remote_update, h]

/-- Claim C9: registering a name whose trimmed, lowercased form resolves
through the name index to a stored profile returns exactly that profile
(same id, progress and timestamp, with the returning-player message) and
leaves the store unchanged — no profile is created. -/
theorem register_player_existing_name (st : ServerState) (name fresh_id : String)
    (now : ℤ) (id : String) (profile : PlayerProfile)
    (hname : ¬ strTrim name = "")
    (hidx : st.name_index.lookup (normalize_name (strTrim name)) = some id)
    (hprof : st.players.lookup id = some profile) :
    register_player st name fresh_id now =
      (Except.ok (build_register_response profile "Welcome back! Progress loaded."), st) := by
  unfold register_player
  rw [if_neg hname]
  simp only [hidx, Option.some_bind, hprof]

/-- The profile stored under the name "Ada" in the witness store. -/
def adaProfile : PlayerProfile := ⟨"id-1", "Ada", PlayerProgress.default, 42⟩

/-- A store holding the single profile of "Ada", indexed under "ada". -/
def adaStore : ServerState := ⟨[("id-1", adaProfile)], [("ada", "id-1")]⟩

/-- Witness for C9: registering " Ada " (whitespace, different case) against
a store already holding "Ada" returns the stored profile unchanged. -/
theorem register_player_existing_name_witness :
    ¬ strTrim " Ada " = "" ∧
    adaStore.name_index.lookup (normalize_name (strTrim " Ada ")) = some "id-1" ∧
    adaStore.players.lookup "id-1" = some adaProfile ∧
    register_player adaStore " Ada " "fresh-id" 99 =
      (Except.ok (build_register_response adaProfile "Welcome back! Progress loaded."), adaStore) :=
  ⟨by decide, by decide, by decide,
   register_player_existing_name adaStore " Ada " "fresh-id" 99 "id-1" adaProfile
     (by decide) (by decide) (by decide)⟩

end Kurikka
